import Mathlib

/-!
Verification of the GreenGuard waste-scanner classification core
(`src/waste_scanner.py`): metric extraction over the normalized pixel
buffer, feature-flag derivation with the clean-material override, the
priority-ordered classification table, confidence estimation, and the
category-scoped impact messages.

Python floats are modelled as exact rationals (ℚ); all thresholds in the
source are short decimal literals, so every comparison in the source is
exact under this embedding.
-/

/-- One RGB pixel of the normalized buffer: channel values scaled to [0,1]
by dividing the 8-bit values by 255 (`arr = np.asarray(resized) / 255.0`). -/
structure Pixel where
  r : ℚ
  g : ℚ
  b : ℚ
  deriving DecidableEq

/-- The resized analysis buffer: 224×224 pixels, indexed row then column
(`resized = image.resize((224, 224))`). -/
abbrev Buffer := Fin 224 → Fin 224 → Pixel

/-- The five scalar image statistics computed by `inspect_image`. -/
structure MetricSet where
  brightness : ℚ
  dark_fraction : ℚ
  warm_fraction : ℚ
  shiny_fraction : ℚ
  neutral_fraction : ℚ
  deriving DecidableEq

/-- The five boolean cues derived from the metrics by `inspect_image`. -/
structure FlagSet where
  food_residue : Bool
  black_plastic : Bool
  soft_plastic : Bool
  paper_lining : Bool
  clean_material : Bool
  deriving DecidableEq, Fintype

/-- The tuple returned by `classify_item`:
(verdict, action, explanation, category). -/
structure Classification where
  verdict : String
  action : String
  explanation : String
  category : String
  deriving DecidableEq

/-- Sum of the three channel values of a pixel. -/
def pixSum (p : Pixel) : ℚ := p.r + p.g + p.b

/-- Per-pixel mean of the three channels (`arr.mean(axis=2)`). -/
def pixMean (p : Pixel) : ℚ := pixSum p / 3

/-- Largest channel value of a pixel (`arr.max(axis=2)`). -/
def pixMax (p : Pixel) : ℚ := max p.r (max p.g p.b)

/-- Smallest channel value of a pixel (`arr.min(axis=2)`). -/
def pixMin (p : Pixel) : ℚ := min p.r (min p.g p.b)

/-- Per-pixel population variance across the three channels.
`numpy`'s `arr.std(axis=2)` is the square root of this; since both sides
are nonnegative, the source test `std < 0.05` is equivalent to
`variance < 0.05 ^ 2`, which is how the neutral-pixel test is embedded
(keeping the development inside ℚ). -/
def pixVar (p : Pixel) : ℚ :=
  ((p.r - pixMean p) ^ 2 + (p.g - pixMean p) ^ 2 + (p.b - pixMean p) ^ 2) / 3

/-- Fraction of the 224×224 pixels of the buffer satisfying a predicate
(`mask.mean()` on a boolean mask). -/
def pixelFraction (P : Pixel → Prop) [DecidablePred P] (buf : Buffer) : ℚ :=
  ((Finset.univ.filter fun q : Fin 224 × Fin 224 => P (buf q.1 q.2)).card : ℚ) / (224 * 224)

/-- The metric extraction of `inspect_image` (numpy branch): the five
statistics computed over the resized, normalized buffer. -/
def extract_metrics (buf : Buffer) : MetricSet where
  brightness := (∑ q : Fin 224 × Fin 224, pixSum (buf q.1 q.2)) / (224 * 224 * 3)
  dark_fraction := pixelFraction (fun p => pixMean p < 0.25) buf
  warm_fraction := pixelFraction (fun p => p.r - p.g > 0.08 ∧ p.r - p.b > 0.08) buf
  shiny_fraction := pixelFraction (fun p => pixMax p > 0.9 ∧ pixMin p < 0.2) buf
  neutral_fraction := pixelFraction (fun p => pixVar p < 0.05 ^ 2) buf

/-- The fixed MetricSet used by `inspect_image` when numpy is unavailable. -/
def fallbackMetrics : MetricSet where
  brightness := 0.55
  dark_fraction := 0.2
  warm_fraction := 0.2
  shiny_fraction := 0.2
  neutral_fraction := 0.2

/-- The threshold stage of `inspect_image`: each flag from its metric
comparisons, before the clean-material override. -/
def deriveFlagsRaw (m : MetricSet) : FlagSet where
  food_residue := decide (m.warm_fraction > 0.32 ∧ m.brightness < 0.7)
  black_plastic := decide (m.dark_fraction > 0.5 ∧ m.brightness < 0.4)
  soft_plastic := decide (m.shiny_fraction > 0.45 ∧ m.brightness > 0.35)
  paper_lining := decide (m.brightness > 0.65 ∧ m.shiny_fraction > 0.25)
  clean_material := decide (m.neutral_fraction > 0.45)

/-- The override stage of `inspect_image`: if `food_residue`,
`black_plastic` or `soft_plastic` is set, force `clean_material` false. -/
def applyOverride (f : FlagSet) : FlagSet :=
  if f.food_residue || f.black_plastic || f.soft_plastic then
    { f with clean_material := false }
  else f

/-- Flag derivation as `inspect_image` performs it: thresholds, then the
override. -/
def deriveFlags (m : MetricSet) : FlagSet := applyOverride (deriveFlagsRaw m)

/-- `inspect_image`: `none` models the numpy-unavailable fallback branch,
`some buf` the normal branch with the resized buffer. Returns the metrics
together with the derived flags. -/
def inspect_image (input : Option Buffer) : MetricSet × FlagSet :=
  let metrics := match input with
    | none => fallbackMetrics
    | some buf => extract_metrics buf
  (metrics, deriveFlags metrics)

/-- `classify_item`: the ordered decision list mapping flags to
(verdict, action, explanation, category). -/
def classify_item (flags : FlagSet) : Classification :=
  if flags.black_plastic then
    { verdict := "🚯 Not Recyclable"
      action := "Place this in general waste—black plastic is rarely detected by optical sorters."
      explanation := "Deep black pigments absorb the sorting lasers, so recycling centers cannot identify it."
      category := "reject" }
  else if flags.soft_plastic then
    { verdict := "🚯 Not Recyclable"
      action := "Drop soft plastic films at a store take-back bin or dispose with trash if none exist."
      explanation := "Thin, reflective plastic film tangles in machinery at curbside facilities."
      category := "reject" }
  else if flags.food_residue then
    { verdict := "⚠ Rinse & Recycle"
      action := "Rinse off the food residue, scrape any grease, and let it dry before recycling."
      explanation := "Organic residue can contaminate paper and cardboard in the recycling stream."
      category := "rinse" }
  else if flags.paper_lining then
    { verdict := "⚠ Rinse & Recycle"
      action := "Peel out the plastic lining or lid where possible, then recycle the clean paper portion."
      explanation := "Paper cups and cartons often have thin plastic liners that need separating to be recycled."
      category := "rinse" }
  else if flags.clean_material then
    { verdict := "♻ Recyclable"
      action := "Place it in your mixed recycling bin—clean single-material items are accepted curbside."
      explanation := "No contamination detected; facilities can easily process glass, metal, or cardboard like this."
      category := "recycle" }
  else
    { verdict := "⚠ Rinse & Recycle"
      action := "Give it a quick check—if it’s rigid and mostly clean, recycle; otherwise rinse first."
      explanation := "The scanner saw mixed cues, so a quick clean ensures it won’t be rejected for contamination."
      category := "rinse" }

/-- Number of flags set true (`sum(1 for v in flags.values() if v)`). -/
def trueFlagCount (f : FlagSet) : ℕ :=
  (if f.food_residue then 1 else 0) + (if f.black_plastic then 1 else 0) +
    (if f.soft_plastic then 1 else 0) + (if f.paper_lining then 1 else 0) +
    (if f.clean_material then 1 else 0)

/-- Python's `round(x, 2)`. Python rounds half to even while `round` on ℚ
rounds half up; `estimate_confidence` only ever rounds exact multiples of
1/100 (every term is a multiple of 0.01), where both are the identity, so
the difference is immaterial. -/
def round2 (q : ℚ) : ℚ := (round (q * 100) : ℤ) / 100

/-- `estimate_confidence`: base from the true-flag count, a decisive-cue
bonus, a well-exposed-image bonus, then round to 2 decimals and clamp to
[0.45, 0.95] (`max(0.45, min(0.95, round(base, 2)))`). -/
def estimate_confidence (flags : FlagSet) (brightness : ℚ) : ℚ :=
  let true_flags : ℤ := trueFlagCount flags
  let base : ℚ := 0.6 + 0.08 * ((max (true_flags - 1) 0 : ℤ) : ℚ)
  let base : ℚ := if flags.clean_material || flags.black_plastic then base + 0.1 else base
  let base : ℚ := if 0.35 < brightness ∧ brightness < 0.8 then base + 0.05 else base
  max 0.45 (min 0.95 (round2 base))

/-- `IMPACT_STATEMENTS`: the fixed three-message list for each category. -/
def IMPACT_STATEMENTS (category : String) : List String :=
  if category = "recycle" then
    ["You kept a clean stream that protects ~20 other recyclables.",
     "Nice! That’s enough material to offset a day of curbside pickups.",
     "Clean recyclables like this can be turned into new packaging within weeks."]
  else if category = "rinse" then
    ["A 30-second rinse protects trucks from contamination residues.",
     "Rinsing keeps this out of landfill and saves energy in sorting centers.",
     "Quick cleaning like this can salvage an entire batch of plastics."]
  else if category = "reject" then
    ["Spotting non-recyclables early prevents machinery jams downstream.",
     "Diverting this now keeps recycling loads from being rejected.",
     "Good catch—disposing properly avoids contaminating ~10 kg of recyclables."]
  else []

/-- The dictionary built by `analyze_waste_item`. -/
structure AnalysisResult where
  verdict : String
  action : String
  explanation : String
  impact : String
  features : FlagSet
  metrics : MetricSet
  confidence : ℚ
  deriving DecidableEq

/-- `analyze_waste_item`: run the pipeline and assemble the result.
`random.choice` over the 3-entry message list is modelled by the index
`k : Fin 3` (the only nondeterminism in the call). -/
def analyze_waste_item (input : Option Buffer) (k : Fin 3) : AnalysisResult :=
  let mf := inspect_image input
  let c := classify_item mf.2
  { verdict := c.verdict
    action := c.action
    explanation := c.explanation
    impact := (IMPACT_STATEMENTS c.category).getD k.val ""
    features := mf.2
    metrics := mf.1
    confidence := estimate_confidence mf.2 mf.1.brightness }

/-- Guard of each rule of the decision list in `classify_item`, in source
order: black_plastic, soft_plastic, food_residue, paper_lining,
clean_material, catch-all. -/
def ruleGuard : Fin 6 → FlagSet → Bool
  | 0, f => f.black_plastic
  | 1, f => f.soft_plastic
  | 2, f => f.food_residue
  | 3, f => f.paper_lining
  | 4, f => f.clean_material
  | 5, _ => true

/-- Category produced by each rule of the decision list. -/
def ruleCategory : Fin 6 → String
  | 0 => "reject"
  | 1 => "reject"
  | 2 => "rinse"
  | 3 => "rinse"
  | 4 => "recycle"
  | 5 => "rinse"

/-- Claim C1: `classify_item` is a total priority-ordered decision list:
for every FlagSet exactly one rule is the first whose guard holds (the
catch-all makes the table total over all 32 combinations, and the
uniqueness conjunct says no other rule is a first match), and the
returned category is that rule's category (reject, reject, rinse, rinse,
recycle, rinse in priority order). -/
theorem classify_item_decision_list :
    ∀ f : FlagSet, ∃ i : Fin 6,
      ((ruleGuard i f = true ∧ ∀ j : Fin 6, j < i → ruleGuard j f = false) ∧
        (classify_item f).category = ruleCategory i) ∧
      ∀ i2 : Fin 6,
        (ruleGuard i2 f = true ∧ ∀ j : Fin 6, j < i2 → ruleGuard j f = false) → i2 = i := by
  decide

/-- Claim C2: in the FlagSet returned by `inspect_image` — for any buffer
and in the numpy-unavailable fallback alike — `clean_material` is never
true together with any of `food_residue`, `black_plastic`,
`soft_plastic`. -/
theorem inspect_image_clean_material_exclusive :
    ∀ input : Option Buffer,
      ((inspect_image input).2.clean_material &&
        ((inspect_image input).2.food_residue || (inspect_image input).2.black_plastic ||
          (inspect_image input).2.soft_plastic)) = false := by
  have h : ∀ f : FlagSet,
      ((applyOverride f).clean_material &&
        ((applyOverride f).food_residue || (applyOverride f).black_plastic ||
          (applyOverride f).soft_plastic)) = false := by decide
  intro input
  rcases input with _ | buf
  · exact h (deriveFlagsRaw fallbackMetrics)
  · exact h (deriveFlagsRaw (extract_metrics buf))

/-- Claim C3: before the override, each flag is derived from the metrics
by exactly the strict-inequality thresholds of the source (warm > 0.32 ∧
brightness < 0.7; dark > 0.5 ∧ brightness < 0.4; shiny > 0.45 ∧
brightness > 0.35; brightness > 0.65 ∧ shiny > 0.25; neutral > 0.45). -/
theorem deriveFlagsRaw_thresholds (m : MetricSet) :
    ((deriveFlagsRaw m).food_residue = true ↔ m.warm_fraction > 0.32 ∧ m.brightness < 0.7) ∧
    ((deriveFlagsRaw m).black_plastic = true ↔ m.dark_fraction > 0.5 ∧ m.brightness < 0.4) ∧
    ((deriveFlagsRaw m).soft_plastic = true ↔ m.shiny_fraction > 0.45 ∧ m.brightness > 0.35) ∧
    ((deriveFlagsRaw m).paper_lining = true ↔ m.brightness > 0.65 ∧ m.shiny_fraction > 0.25) ∧
    ((deriveFlagsRaw m).clean_material = true ↔ m.neutral_fraction > 0.45) := by
  simp [deriveFlagsRaw]

/-- Claim C4: `estimate_confidence` equals the clamp to [0.45, 0.95] of
the rounded sum 0.6 + 0.08·max(trueFlagCount − 1, 0) + a 0.1 bonus when
`clean_material` or `black_plastic` is set + a 0.05 bonus when
0.35 < brightness < 0.8. -/
theorem estimate_confidence_formula (f : FlagSet) (b : ℚ) :
    estimate_confidence f b =
      max 0.45 (min 0.95 (round2
        (0.6 + 0.08 * ((max ((trueFlagCount f : ℤ) - 1) 0 : ℤ) : ℚ) +
          (if f.clean_material || f.black_plastic then 0.1 else 0) +
          (if 0.35 < b ∧ b < 0.8 then 0.05 else 0)))) := by
  simp only [estimate_confidence]
  split_ifs <;> ring_nf

/-- Claim C5: for every FlagSet and brightness — including no set flags
and brightness 0 or 1 — the confidence lies in [0.45, 0.95]. -/
theorem estimate_confidence_bounds (f : FlagSet) (b : ℚ) :
    0.45 ≤ estimate_confidence f b ∧ estimate_confidence f b ≤ 0.95 := by
  simp only [estimate_confidence]
  exact ⟨le_max_left _ _, max_le (by norm_num) (min_le_left _ _)⟩

/-- The pre-round, pre-clamp confidence sum: base plus the two bonuses. -/
def confBase (f : FlagSet) (b : ℚ) : ℚ :=
  0.6 + 0.08 * ((max ((trueFlagCount f : ℤ) - 1) 0 : ℤ) : ℚ) +
    (if f.clean_material || f.black_plastic then 0.1 else 0) +
    (if 0.35 < b ∧ b < 0.8 then 0.05 else 0)

lemma estimate_eq_confBase (f : FlagSet) (b : ℚ) :
    estimate_confidence f b = max 0.45 (min 0.95 (round2 (confBase f b))) := by
  simp only [estimate_confidence, confBase]
  split_ifs <;> ring_nf

lemma trueFlagCount_le_five (f : FlagSet) : trueFlagCount f ≤ 5 := by
  unfold trueFlagCount
  split_ifs <;> norm_num

lemma confBase_int_rep (f : FlagSet) (b : ℚ) :
    ∃ n : ℤ, 60 ≤ n ∧ n ≤ 107 ∧ confBase f b = (n : ℚ) / 100 := by
  set m : ℤ := max ((trueFlagCount f : ℤ) - 1) 0 with hm
  have hm0 : 0 ≤ m := le_max_right _ _
  have hm4 : m ≤ 4 := by
    have h5 := trueFlagCount_le_five f
    rw [hm]
    apply max_le _ (by norm_num)
    omega
  refine ⟨60 + 8 * m + (if f.clean_material || f.black_plastic then 10 else 0) +
    (if 0.35 < b ∧ b < 0.8 then 5 else 0), ?_, ?_, ?_⟩
  · split_ifs <;> omega
  · split_ifs <;> omega
  · unfold confBase
    rw [← hm]
    split_ifs <;> push_cast <;> ring_nf

lemma round2_int_div (n : ℤ) : round2 ((n : ℚ) / 100) = (n : ℚ) / 100 := by
  unfold round2
  rw [div_mul_cancel₀ _ (by norm_num : (100 : ℚ) ≠ 0), round_intCast]

/-- Claim C10: the confidence never falls below 0.6 — the base term is at
least 0.6 and every bonus is nonnegative, so the 0.45 clamp never binds
and the realized range is [0.6, 0.95]. -/
theorem estimate_confidence_at_least_base (f : FlagSet) (b : ℚ) :
    0.6 ≤ estimate_confidence f b ∧ estimate_confidence f b ≤ 0.95 := by
  rw [estimate_eq_confBase]
  obtain ⟨n, h60, -, hEq⟩ := confBase_int_rep f b
  rw [hEq, round2_int_div]
  have h1 : (0.6 : ℚ) ≤ (n : ℚ) / 100 := by
    have : (60 : ℚ) ≤ (n : ℚ) := by exact_mod_cast h60
    linarith
  exact ⟨le_trans (le_min (by norm_num) h1) (le_max_right _ _),
    max_le (by norm_num) (min_le_left _ _)⟩

/-- Claim C6: with numpy unavailable the call still succeeds:
`inspect_image` returns the fixed default MetricSet, its flags are all
false, and classification lands on the final catch-all rule
("⚠ Rinse & Recycle", category "rinse"). -/
theorem inspect_image_fallback_behavior :
    inspect_image none = (⟨0.55, 0.2, 0.2, 0.2, 0.2⟩, ⟨false, false, false, false, false⟩) ∧
    (classify_item (inspect_image none).2).verdict = "⚠ Rinse & Recycle" ∧
    (classify_item (inspect_image none).2).category = "rinse" := by
  norm_num [inspect_image, fallbackMetrics, deriveFlags, deriveFlagsRaw, applyOverride,
    classify_item]

/-- The normalized buffer of an all-black image: every channel of every
pixel is 0. -/
def allBlackBuffer : Buffer := fun _ _ => ⟨0, 0, 0⟩

/-- A decoded image of arbitrary dimensions, as handed to
`inspect_image`: 8-bit RGB values per pixel. -/
structure RawImage where
  width : ℕ
  height : ℕ
  pixel : ℕ → ℕ → ℕ × ℕ × ℕ

/-- `image.resize((224, 224))` followed by the `/ 255.0` normalization,
modelled with nearest-neighbour sampling. The spec (§4.1) notes the exact
resampling filter is not behaviorally significant; every resampler agrees
on the constant images used in the concrete theorems below. -/
def resize224 (img : RawImage) : Buffer := fun i j =>
  let p := img.pixel (i.val * img.height / 224) (j.val * img.width / 224)
  ⟨(p.1 : ℚ) / 255, (p.2.1 : ℚ) / 255, (p.2.2 : ℚ) / 255⟩

/-- `inspect_image` on a raw image of arbitrary dimensions: the source
resizes unconditionally before extracting metrics — there is no shape
check anywhere on this path. -/
def inspect_image_any (img : RawImage) : MetricSet × FlagSet :=
  inspect_image (some (resize224 img))

/-- A 1×1 all-black image: its buffer shape differs from the fixed
224×224 analysis shape. -/
def onePixelBlackImage : RawImage := ⟨1, 1, fun _ _ => (0, 0, 0)⟩

lemma pixelFraction_true {P : Pixel → Prop} [DecidablePred P] (buf : Buffer)
    (h : ∀ i j, P (buf i j)) : pixelFraction P buf = 1 := by
  unfold pixelFraction
  have hfilter : (Finset.univ.filter fun q : Fin 224 × Fin 224 => P (buf q.1 q.2)) =
      Finset.univ := Finset.filter_true_of_mem fun q _ => h q.1 q.2
  rw [hfilter, Finset.card_univ, Fintype.card_prod]
  norm_num

lemma pixelFraction_false {P : Pixel → Prop} [DecidablePred P] (buf : Buffer)
    (h : ∀ i j, ¬ P (buf i j)) : pixelFraction P buf = 0 := by
  unfold pixelFraction
  have hfilter : (Finset.univ.filter fun q : Fin 224 × Fin 224 => P (buf q.1 q.2)) =
      ∅ := Finset.filter_false_of_mem fun q _ => h q.1 q.2
  rw [hfilter]
  simp

lemma extract_metrics_allBlack : extract_metrics allBlackBuffer = ⟨0, 1, 0, 0, 1⟩ := by
  have hb : (∑ q : Fin 224 × Fin 224, pixSum (allBlackBuffer q.1 q.2)) = 0 := by
    simp [allBlackBuffer, pixSum]
  have hd : pixelFraction (fun p => pixMean p < 0.25) allBlackBuffer = 1 :=
    pixelFraction_true _ fun i j => by norm_num [allBlackBuffer, pixMean, pixSum]
  have hw : pixelFraction (fun p => p.r - p.g > 0.08 ∧ p.r - p.b > 0.08) allBlackBuffer = 0 :=
    pixelFraction_false _ fun i j => by norm_num [allBlackBuffer]
  have hs : pixelFraction (fun p => pixMax p > 0.9 ∧ pixMin p < 0.2) allBlackBuffer = 0 :=
    pixelFraction_false _ fun i j => by norm_num [allBlackBuffer, pixMax, pixMin]
  have hn : pixelFraction (fun p => pixVar p < 0.05 ^ 2) allBlackBuffer = 1 :=
    pixelFraction_true _ fun i j => by norm_num [allBlackBuffer, pixVar, pixMean, pixSum]
  unfold extract_metrics
  rw [hb, hd, hw, hs, hn]
  norm_num

lemma inspect_image_allBlack :
    inspect_image (some allBlackBuffer) =
      (⟨0, 1, 0, 0, 1⟩, ⟨false, true, false, false, false⟩) := by
  show (extract_metrics allBlackBuffer, deriveFlags (extract_metrics allBlackBuffer)) = _
  rw [extract_metrics_allBlack]
  norm_num [deriveFlags, deriveFlagsRaw, applyOverride, Prod.ext_iff]

/-- Claim C7 counterexample: on the all-black 224×224 image the claim's
"other fractions ≈ 0" fails — `neutral_fraction` equals 1 (every
all-black pixel is color-flat: its channel standard deviation is 0),
nowhere near 0. -/
theorem allBlack_neutral_fraction_one :
    (extract_metrics allBlackBuffer).neutral_fraction = 1 ∧
      ¬ (extract_metrics allBlackBuffer).neutral_fraction < 0.5 := by
  rw [extract_metrics_allBlack]
  norm_num

/-- Claim C7 (amended): the all-black 224×224 image yields brightness 0,
dark_fraction 1, warm and shiny fractions 0 and neutral_fraction 1; the
pre-override clean-material threshold fires but the override clears it,
leaving flags {black_plastic} only; the verdict is "Not Recyclable" with
category reject and the confidence is 0.70. -/
theorem allBlack_pipeline :
    inspect_image (some allBlackBuffer) =
      (⟨0, 1, 0, 0, 1⟩, ⟨false, true, false, false, false⟩) ∧
    (classify_item ⟨false, true, false, false, false⟩).verdict = "🚯 Not Recyclable" ∧
    (classify_item ⟨false, true, false, false, false⟩).category = "reject" ∧
    estimate_confidence ⟨false, true, false, false, false⟩ 0 = 0.7 := by
  refine ⟨inspect_image_allBlack, by norm_num [classify_item], by norm_num [classify_item], ?_⟩
  have hc : confBase ⟨false, true, false, false, false⟩ 0 = ((70 : ℤ) : ℚ) / 100 := by
    norm_num [confBase, trueFlagCount, max_self]
  rw [estimate_eq_confBase, hc, round2_int_div]
  rw [min_eq_right (by norm_num), max_eq_right (by norm_num)]
  norm_num

lemma resize224_onePixelBlack : resize224 onePixelBlackImage = allBlackBuffer := by
  funext i j
  simp [resize224, onePixelBlackImage, allBlackBuffer]

/-- Claim C9 counterexample: a 1×1 image — a buffer shape violating the
fixed 224×224 analysis shape — is not treated as a fatal error: there is
no shape assertion anywhere in `inspect_image`, which resizes
unconditionally and here produces the ordinary black-plastic
classification result. -/
theorem shape_violation_not_fatal :
    onePixelBlackImage.width = 1 ∧ onePixelBlackImage.height = 1 ∧
    inspect_image_any onePixelBlackImage =
      (⟨0, 1, 0, 0, 1⟩, ⟨false, true, false, false, false⟩) ∧
    (classify_item (inspect_image_any onePixelBlackImage).2).category = "reject" := by
  have hpipe : inspect_image_any onePixelBlackImage =
      (⟨0, 1, 0, 0, 1⟩, ⟨false, true, false, false, false⟩) := by
    unfold inspect_image_any
    rw [resize224_onePixelBlack]
    exact inspect_image_allBlack
  refine ⟨rfl, rfl, hpipe, ?_⟩
  rw [hpipe]
  norm_num [classify_item]

/-- Claim C9 (amended): `inspect_image` performs no shape validation —
it establishes the 224×224×3 shape itself by resizing whatever image it
receives, so every input of every size flows through metric extraction
and yields a classification with a well-formed category, never a fatal
error. -/
theorem inspect_image_total_any_shape (img : RawImage) :
    (classify_item (inspect_image_any img).2).category ∈
      (["recycle", "rinse", "reject"] : List String) := by
  unfold classify_item
  split_ifs <;> simp

lemma classify_item_category_cases (f : FlagSet) :
    (classify_item f).category = "reject" ∨ (classify_item f).category = "rinse" ∨
      (classify_item f).category = "recycle" := by
  unfold classify_item
  split_ifs <;> simp

/-- Claim C8: for every input and every outcome of the random pick, the
impact message of `analyze_waste_item` comes from the 3-entry list of the
call's own category and from no other category's list, and the pick has
no effect on verdict, action, explanation, features, metrics or
confidence. -/
theorem analyze_impact_category_scoped (input : Option Buffer) (k : Fin 3) :
    ((analyze_waste_item input k).impact ∈
        IMPACT_STATEMENTS (classify_item (inspect_image input).2).category) ∧
    (∀ c ∈ (["recycle", "rinse", "reject"] : List String),
        c ≠ (classify_item (inspect_image input).2).category →
          (analyze_waste_item input k).impact ∉ IMPACT_STATEMENTS c) ∧
    (∀ k2 : Fin 3,
        (analyze_waste_item input k2).verdict = (analyze_waste_item input k).verdict ∧
        (analyze_waste_item input k2).action = (analyze_waste_item input k).action ∧
        (analyze_waste_item input k2).explanation = (analyze_waste_item input k).explanation ∧
        (analyze_waste_item input k2).features = (analyze_waste_item input k).features ∧
        (analyze_waste_item input k2).metrics = (analyze_waste_item input k).metrics ∧
        (analyze_waste_item input k2).confidence = (analyze_waste_item input k).confidence) := by
  refine ⟨?_, ?_, fun k2 => ⟨rfl, rfl, rfl, rfl, rfl, rfl⟩⟩ <;>
    simp only [analyze_waste_item] <;>
    rcases classify_item_category_cases (inspect_image input).2 with h | h | h <;>
    rw [h] <;> fin_cases k <;> decide
